import Mathlib

/-
Verification of the BaraBild image-search service (src/main.py).

The development shallow-embeds the source:
  - hashlib.md5 and str.encode() are implemented in full (Nat arithmetic
    with explicit reduction mod 2^32 / 2^64), so cache keys are computed
    exactly as the program computes them;
  - the on-disk cache directory is a list of (path, file-content) pairs;
    a stored file is either a well-formed persisted record
    (json of timestamp + html, which round-trips losslessly) or malformed;
  - datetime.now() is an explicit Int parameter (seconds);
  - BeautifulSoup is a parameter (parse : String -> Soup) producing the
    document structure the extractor inspects;
  - the network (requests.get + raise_for_status) is a FetchOutcome
    parameter: either a transport-level exception or a response with a
    status code and a body;
  - Python exceptions become an explicit error type: a value of
    Except PyExn _ that is an error models an exception propagating out
    of the handler (FastAPI would then produce an internal server error),
    as opposed to an HTTPException value deliberately raised by the code.
-/

set_option maxRecDepth 4096

/-! ## str.encode(): UTF-8 encoding of a Python string -/

/-- UTF-8 encoding of a single code point, as byte values. -/
def utf8EncodeChar (c : Char) : List Nat :=
  let n := c.toNat
  if n < 0x80 then [n]
  else if n < 0x800 then
    [0xC0 ||| (n >>> 6), 0x80 ||| (n &&& 0x3F)]
  else if n < 0x10000 then
    [0xE0 ||| (n >>> 12), 0x80 ||| ((n >>> 6) &&& 0x3F), 0x80 ||| (n &&& 0x3F)]
  else
    [0xF0 ||| (n >>> 18), 0x80 ||| ((n >>> 12) &&& 0x3F),
     0x80 ||| ((n >>> 6) &&& 0x3F), 0x80 ||| (n &&& 0x3F)]

/-- UTF-8 encoding of a string: the byte content of query.encode(). -/
def utf8Encode (s : String) : List Nat :=
  s.data.foldr (fun c acc => utf8EncodeChar c ++ acc) []

/-! ## hashlib.md5 -/

/-- The 64 MD5 round constants (floor of 2^32 * abs(sin(i+1))). -/
def md5K : List Nat :=
  [0xd76aa478, 0xe8c7b756, 0x242070db, 0xc1bdceee,
   0xf57c0faf, 0x4787c62a, 0xa8304613, 0xfd469501,
   0x698098d8, 0x8b44f7af, 0xffff5bb1, 0x895cd7be,
   0x6b901122, 0xfd987193, 0xa679438e, 0x49b40821,
   0xf61e2562, 0xc040b340, 0x265e5a51, 0xe9b6c7aa,
   0xd62f105d, 0x02441453, 0xd8a1e681, 0xe7d3fbc8,
   0x21e1cde6, 0xc33707d6, 0xf4d50d87, 0x455a14ed,
   0xa9e3e905, 0xfcefa3f8, 0x676f02d9, 0x8d2a4c8a,
   0xfffa3942, 0x8771f681, 0x6d9d6122, 0xfde5380c,
   0xa4beea44, 0x4bdecfa9, 0xf6bb4b60, 0xbebfbc70,
   0x289b7ec6, 0xeaa127fa, 0xd4ef3085, 0x04881d05,
   0xd9d4d039, 0xe6db99e5, 0x1fa27cf8, 0xc4ac5665,
   0xf4292244, 0x432aff97, 0xab9423a7, 0xfc93a039,
   0x655b59c3, 0x8f0ccc92, 0xffeff47d, 0x85845dd1,
   0x6fa87e4f, 0xfe2ce6e0, 0xa3014314, 0x4e0811a1,
   0xf7537e82, 0xbd3af235, 0x2ad7d2bb, 0xeb86d391]

/-- The 64 MD5 per-round left-rotation amounts. -/
def md5S : List Nat :=
  [7, 12, 17, 22, 7, 12, 17, 22, 7, 12, 17, 22, 7, 12, 17, 22,
   5, 9, 14, 20, 5, 9, 14, 20, 5, 9, 14, 20, 5, 9, 14, 20,
   4, 11, 16, 23, 4, 11, 16, 23, 4, 11, 16, 23, 4, 11, 16, 23,
   6, 10, 15, 21, 6, 10, 15, 21, 6, 10, 15, 21, 6, 10, 15, 21]

/-- Left rotation of a 32-bit word. -/
def rotl32 (x s : Nat) : Nat :=
  ((x <<< s) ||| (x >>> (32 - s))) % 4294967296

/-- The MD5 nonlinear function for round i applied to registers b, c, d
(complement of a word w below 2^32 is 4294967295 - w). -/
def md5F (i b c d : Nat) : Nat :=
  if i < 16 then (b &&& c) ||| ((4294967295 - b) &&& d)
  else if i < 32 then (b &&& d) ||| (c &&& (4294967295 - d))
  else if i < 48 then (b ^^^ c) ^^^ d
  else c ^^^ (b ||| (4294967295 - d))

/-- The message-word index used by MD5 round i. -/
def md5G (i : Nat) : Nat :=
  if i < 16 then i
  else if i < 32 then (5 * i + 1) % 16
  else if i < 48 then (3 * i + 5) % 16
  else (7 * i) % 16

/-- count little-endian bytes of n. -/
def leBytes (n : Nat) : Nat → List Nat
  | 0 => []
  | k + 1 => n % 256 :: leBytes (n / 256) k

/-- The j-th 32-bit little-endian word of a 64-byte chunk. -/
def leWord (chunk : List Nat) (j : Nat) : Nat :=
  chunk.getD (4 * j) 0 + 256 * chunk.getD (4 * j + 1) 0 +
    65536 * chunk.getD (4 * j + 2) 0 + 16777216 * chunk.getD (4 * j + 3) 0

/-- One MD5 round: update the register file from message accessor m at round i. -/
def md5Step (m : Nat → Nat) (st : Nat × Nat × Nat × Nat) (i : Nat) :
    Nat × Nat × Nat × Nat :=
  match st with
  | (a, b, c, d) =>
    let f := (md5F i b c d + a + md5K.getD i 0 + m (md5G i)) % 4294967296
    (d, (b + rotl32 f (md5S.getD i 0)) % 4294967296, b, c)

/-- Process one 64-byte chunk: 64 rounds, then add into the running state. -/
def md5ProcessChunk (chunk : List Nat) (st : Nat × Nat × Nat × Nat) :
    Nat × Nat × Nat × Nat :=
  match st, (List.range 64).foldl (md5Step (leWord chunk)) st with
  | (a0, b0, c0, d0), (a, b, c, d) =>
    ((a0 + a) % 4294967296, (b0 + b) % 4294967296,
     (c0 + c) % 4294967296, (d0 + d) % 4294967296)

/-- Process the padded message chunk by chunk; fuel is the chunk count. -/
def md5Loop : Nat → List Nat → Nat × Nat × Nat × Nat → Nat × Nat × Nat × Nat
  | 0, _, st => st
  | fuel + 1, bytes, st =>
    md5Loop fuel (bytes.drop 64) (md5ProcessChunk (bytes.take 64) st)

/-- MD5 padding for a message of the given byte length: a 0x80 byte, zeros
to 56 mod 64, then the bit length as 8 little-endian bytes mod 2^64. -/
def md5Padding (len : Nat) : List Nat :=
  0x80 :: List.replicate ((119 - len % 64) % 64) 0 ++
    leBytes ((len * 8) % 18446744073709551616) 8

/-- The 16-byte MD5 digest of a byte sequence. -/
def md5Bytes (msg : List Nat) : List Nat :=
  let padded := msg ++ md5Padding msg.length
  match md5Loop (padded.length / 64) padded
      (0x67452301, 0xefcdab89, 0x98badcfe, 0x10325476) with
  | (a, b, c, d) => leBytes a 4 ++ leBytes b 4 ++ leBytes c 4 ++ leBytes d 4

/-- Lowercase hexadecimal digit. -/
def hexDigit (n : Nat) : Char :=
  if n < 10 then Char.ofNat (48 + n) else Char.ofNat (87 + n)

/-- Two lowercase hex digits of a byte. -/
def byteHex (b : Nat) : String :=
  String.mk [hexDigit (b / 16), hexDigit (b % 16)]

/-- hashlib.md5(bytes).hexdigest(): lowercase hex of the 16 digest bytes. -/
def md5Hex (msg : List Nat) : String :=
  String.join ((md5Bytes msg).map byteHex)

/-! ## Cache configuration and key derivation (src/main.py lines 14-26) -/

/-- CACHE_DIR = "./cache". -/
def CACHE_DIR : String := "./cache"

/-- CACHE_EXPIRY = timedelta(hours=24), in seconds. -/
def CACHE_EXPIRY : Int := 24 * 60 * 60

/-- get_cache_path: os.path.join(CACHE_DIR, md5(query.encode()).hexdigest() + ".html"). -/
def get_cache_path (query : String) : String :=
  CACHE_DIR ++ "/" ++ md5Hex (utf8Encode query) ++ ".html"

/-! ## On-disk cache state -/

/-- Content of one cache file: either the well-formed persisted record
(json of an iso timestamp and the html payload, a lossless round-trip),
or content on which json.load / record access raises. -/
inductive CacheFile where
  | record (timestamp : Int) (html : String)
  | malformed
deriving DecidableEq, Repr

/-- The cache directory: pathname-to-file-content pairs. -/
abbrev Cache := List (String × CacheFile)

/-- File lookup by pathname. -/
def cacheGet : Cache → String → Option CacheFile
  | [], _ => none
  | (k, v) :: rest, p => if k == p then some v else cacheGet rest p

/-- os.remove: drop the file at a pathname. -/
def cacheRemove : Cache → String → Cache
  | [], _ => []
  | (k, v) :: rest, p =>
    if k == p then cacheRemove rest p else (k, v) :: cacheRemove rest p

/-- open(path, 'w') + write: replace whatever was stored at the pathname. -/
def cacheSet (c : Cache) (p : String) (v : CacheFile) : Cache :=
  (p, v) :: cacheRemove c p

/-! ## Python exceptions relevant to the handler -/

/-- The exceptions parse_html_for_image can raise: images[0] on an empty
result list (IndexError), subscripting the None returned by find('img')
(TypeError), and a missing 'src' attribute key (KeyError). -/
inductive ExtractErr where
  | indexError
  | typeError
  | keyError
deriving DecidableEq, Repr

/-- Exceptions by which control can leave the search_image handler:
json.decoder.JSONDecodeError from json.load on a malformed cache file,
an extraction exception, or a deliberately raised fastapi HTTPException. -/
inductive PyExn where
  | jsonDecodeError
  | extractErr (e : ExtractErr)
  | httpException (status : Nat) (detail : String)
deriving DecidableEq, Repr

/-- The except clause at line 81 of src/main.py catches exactly HTTPException. -/
def isHTTPException : PyExn → Bool
  | .httpException _ _ => true
  | _ => false

/-! ## save_to_cache / load_from_cache (src/main.py lines 28-54) -/

/-- save_to_cache: write the record of the current time and the payload at
the query's cache path, overwriting unconditionally. -/
def save_to_cache (query : String) (html_content : String) (now : Int)
    (cache : Cache) : Cache :=
  cacheSet cache (get_cache_path query) (.record now html_content)

/-- load_from_cache: None if the file is absent; json.load raises on a
malformed file (uncaught); on an expired record, remove the file and
return None; otherwise return the stored html. -/
def load_from_cache (query : String) (now : Int) (cache : Cache) :
    Except PyExn (Option String × Cache) :=
  let cache_path := get_cache_path query
  match cacheGet cache cache_path with
  | none => .ok (none, cache)
  | some .malformed => .error .jsonDecodeError
  | some (.record t html) =>
    if now - t > CACHE_EXPIRY then .ok (none, cacheRemove cache cache_path)
    else .ok (some html, cache)

/-! ## parse_html_for_image (src/main.py lines 56-62) -/

/-- An img tag: its 'src' attribute, when present. -/
structure Img where
  src : Option String
deriving DecidableEq, Repr

/-- A picture tag: its img descendants in document order. -/
structure Picture where
  imgs : List Img
deriving DecidableEq, Repr

/-- A parsed document: its picture tags in document order. BeautifulSoup
itself is modelled as a parameter parse : String -> Soup. -/
structure Soup where
  pictures : List Picture
deriving DecidableEq, Repr

/-- parse_html_for_image: soup.find_all('picture') then images[0]
(IndexError when empty), then image.find('img') (None when absent, and
None['src'] raises TypeError), then ['src'] (KeyError when missing). -/
def parse_html_for_image (parse : String → Soup) (html_content : String) :
    Except ExtractErr String :=
  match (parse html_content).pictures with
  | [] => .error .indexError
  | image :: _ =>
    match image.imgs with
    | [] => .error .typeError
    | img :: _ =>
      match img.src with
      | none => .error .keyError
      | some link => .ok link

/-! ## The upstream request (src/main.py lines 85-106) -/

/-- urllib.parse.quote keeps unreserved bytes and the default safe '/'. -/
def quoteSafeByte (b : Nat) : Bool :=
  (65 ≤ b && b ≤ 90) || (97 ≤ b && b ≤ 122) || (48 ≤ b && b ≤ 57) ||
    b == 45 || b == 46 || b == 95 || b == 126 || b == 47

/-- Uppercase hexadecimal digit (urllib.parse.quote uses uppercase). -/
def hexDigitUpper (n : Nat) : Char :=
  if n < 10 then Char.ofNat (48 + n) else Char.ofNat (55 + n)

/-- urllib.parse.quote: percent-encode every unsafe UTF-8 byte. -/
def urlQuote (s : String) : String :=
  String.join ((utf8Encode s).map (fun b =>
    if quoteSafeByte b then String.mk [Char.ofNat b]
    else String.mk ['%', hexDigitUpper (b / 16), hexDigitUpper (b % 16)]))

/-- search_url: the Getty Images search page for the encoded query. -/
def search_url (query : String) : String :=
  "https://www.gettyimages.com/search/2/image?phrase=" ++ urlQuote query

/-- The headers dict passed to requests.get. -/
def search_headers : List (String × String) :=
  [("User-Agent", "Mozilla/5.0 (Windows NT 10.0; Win64; x64) AppleWebKit/537.36 (KHTML, like Gecko) Chrome/91.0.4472.124 Safari/537.36")]

/-- The arguments of the requests.get call: url, headers, and the timeout
keyword; none means the keyword is not passed, so requests waits without
bound. -/
structure RequestArgs where
  url : String
  headers : List (String × String)
  timeout : Option Int
deriving DecidableEq, Repr

/-- The requests.get invocation at line 94 of src/main.py:
requests.get(search_url, headers=headers) — no timeout argument. -/
def search_request (query : String) : RequestArgs :=
  { url := search_url query, headers := search_headers, timeout := none }

/-- Outcome of the requests.get call: a transport-level RequestException,
or a response with status code and body text. -/
inductive FetchOutcome where
  | transportError (detail : String)
  | response (status : Nat) (text : String)
deriving DecidableEq, Repr

/-- response.raise_for_status raises HTTPError exactly for 400 <= status < 600. -/
def raiseForStatusFails (status : Nat) : Bool :=
  400 ≤ status && status < 600

/-- The message of the HTTPError that raise_for_status raises. -/
def http_error_str (status : Nat) (url : String) : String :=
  if status < 500 then toString status ++ " Client Error for url: " ++ url
  else toString status ++ " Server Error for url: " ++ url

/-! ## The search_image handler (src/main.py lines 68-106) -/

/-- Result of one handler execution: the response or escaping exception,
the final cache directory state, and whether the upstream fetch ran. -/
structure SearchOutcome where
  result : Except PyExn String
  cache : Cache
  fetched : Bool
deriving Repr

/-- The cache-miss tail of the handler (src/main.py lines 85-106): fetch,
raise_for_status, save_to_cache, parse, redirect; a RequestException is
caught and re-raised as HTTPException(500, "Error fetching image: ...");
an extraction exception is not a RequestException and escapes. -/
def fetch_branch (parse : String → Soup) (query : String) (now : Int)
    (cache : Cache) (fetch : FetchOutcome) : SearchOutcome :=
  match fetch with
  | .transportError detail =>
    ⟨.error (.httpException 500 ("Error fetching image: " ++ detail)), cache, true⟩
  | .response status text =>
    if raiseForStatusFails status then
      ⟨.error (.httpException 500
        ("Error fetching image: " ++ http_error_str status (search_url query))),
       cache, true⟩
    else
      let cache2 := save_to_cache query text now cache
      match parse_html_for_image parse text with
      | .ok url => ⟨.ok url, cache2, true⟩
      | .error e => ⟨.error (.extractErr e), cache2, true⟩

/-- The whole handler: load_from_cache (its exception escapes uncaught);
a truthy cached payload (Python: non-None and non-empty) is parsed, with
only HTTPException caught to fall through; otherwise the fetch branch runs. -/
def search_image (parse : String → Soup) (query : String) (now : Int)
    (cache : Cache) (fetch : FetchOutcome) : SearchOutcome :=
  match load_from_cache query now cache with
  | .error e => ⟨.error e, cache, false⟩
  | .ok (cached_html, cache1) =>
    match cached_html with
    | none => fetch_branch parse query now cache1 fetch
    | some s =>
      if s == "" then fetch_branch parse query now cache1 fetch
      else
        match parse_html_for_image parse s with
        | .ok url => ⟨.ok url, cache1, false⟩
        | .error e =>
          if isHTTPException (.extractErr e) then
            fetch_branch parse query now cache1 fetch
          else ⟨.error (.extractErr e), cache1, false⟩

/-! ## Helper lemmas about the cache state -/

/-- Reading back the pathname just written yields the written content. -/
theorem cacheGet_cacheSet_same (c : Cache) (p : String) (v : CacheFile) :
    cacheGet (cacheSet c p v) p = some v := by
  simp [cacheSet, cacheGet]

/-- After removal, the pathname maps to nothing. -/
theorem cacheGet_cacheRemove_same (c : Cache) (p : String) :
    cacheGet (cacheRemove c p) p = none := by
  induction c with
  | nil => rfl
  | cons kv rest ih =>
    obtain ⟨k, v⟩ := kv
    by_cases h : (k == p) = true
    · simp [cacheRemove, h, ih]
    · simp [cacheRemove, h, cacheGet, ih]

/-- Whatever the fetch outcome, the fetch branch records that the upstream
fetch ran. -/
theorem fetch_branch_fetched (parse : String → Soup) (query : String)
    (now : Int) (cache : Cache) (fetch : FetchOutcome) :
    (fetch_branch parse query now cache fetch).fetched = true := by
  cases fetch with
  | transportError d => rfl
  | response status text =>
    simp only [fetch_branch]
    by_cases h : raiseForStatusFails status = true
    · simp [h]
    · simp only [Bool.not_eq_true] at h
      simp only [h, Bool.false_eq_true, if_false]
      cases parse_html_for_image parse text <;> rfl

/-- A fetch outcome on which the code raises before saving: a transport
exception from requests.get, or a status on which raise_for_status raises. -/
def isFetchFailure : FetchOutcome → Bool
  | .transportError _ => true
  | .response status _ => raiseForStatusFails status

/-! ## Claim theorems -/

/-- C4: Put(query, payload) immediately followed by Get(query) returns
exactly that payload, and the stored entry's timestamp is the write time,
so its age at the read is zero. -/
theorem c4_put_get_roundtrip (query payload : String) (now : Int) (cache : Cache) :
    cacheGet (save_to_cache query payload now cache) (get_cache_path query)
      = some (.record now payload) ∧
    load_from_cache query now (save_to_cache query payload now cache)
      = .ok (some payload, save_to_cache query payload now cache) := by
  refine ⟨cacheGet_cacheSet_same .., ?_⟩
  simp only [load_from_cache, save_to_cache, cacheGet_cacheSet_same]
  norm_num [CACHE_EXPIRY]

/-- C5: after Put(query, payload), once more than the 24-hour window has
passed, Get(query) returns Absent and removes the backing entry, and a
second Get(query) again returns Absent without error. -/
theorem c5_expired_get_absent_and_deletes (query payload : String)
    (now now2 : Int) (cache : Cache) (h : now2 - now > CACHE_EXPIRY) :
    load_from_cache query now2 (save_to_cache query payload now cache)
      = .ok (none, cacheRemove (save_to_cache query payload now cache)
          (get_cache_path query)) ∧
    cacheGet (cacheRemove (save_to_cache query payload now cache)
      (get_cache_path query)) (get_cache_path query) = none ∧
    load_from_cache query now2 (cacheRemove (save_to_cache query payload now cache)
      (get_cache_path query))
      = .ok (none, cacheRemove (save_to_cache query payload now cache)
          (get_cache_path query)) := by
  refine ⟨?_, cacheGet_cacheRemove_same .., ?_⟩
  · simp only [load_from_cache, save_to_cache, cacheGet_cacheSet_same]
    rw [if_pos h]
  · simp only [load_from_cache, cacheGet_cacheRemove_same]

/-- Witness for C5 at query "birds", write time 0, read time 90000 seconds. -/
theorem c5_witness :
    load_from_cache "birds" 90000 (save_to_cache "birds" "x" 0 [])
      = .ok (none, cacheRemove (save_to_cache "birds" "x" 0 [])
          (get_cache_path "birds")) ∧
    cacheGet (cacheRemove (save_to_cache "birds" "x" 0 [])
      (get_cache_path "birds")) (get_cache_path "birds") = none ∧
    load_from_cache "birds" 90000 (cacheRemove (save_to_cache "birds" "x" 0 [])
      (get_cache_path "birds"))
      = .ok (none, cacheRemove (save_to_cache "birds" "x" 0 [])
          (get_cache_path "birds")) :=
  c5_expired_get_absent_and_deletes "birds" "x" 0 90000 [] (by decide)

/-- C8: the cache key is a deterministic function of the raw query's byte
content (equal encoded byte sequences give equal on-disk paths), and the
sample distinct queries "cats" and "dogs" get different keys, exhibiting
the collision-freedom the md5 digest is relied on for. -/
theorem c8_cache_key_deterministic :
    (∀ q1 q2 : String, utf8Encode q1 = utf8Encode q2 →
      get_cache_path q1 = get_cache_path q2) ∧
    get_cache_path "cats" ≠ get_cache_path "dogs" := by
  constructor
  · intro q1 q2 h
    unfold get_cache_path
    rw [h]
  · decide

/-- Witness for C8: determinism applied at the concrete query "cats". -/
theorem c8_witness :
    get_cache_path "cats" = get_cache_path "cats" ∧
    get_cache_path "cats" ≠ get_cache_path "dogs" :=
  ⟨c8_cache_key_deterministic.1 "cats" "cats" rfl, c8_cache_key_deterministic.2⟩

/-- C6 evaluation: the requests.get call of the handler passes no timeout
keyword, so the upstream request runs without any bounded timeout; this
contradicts the claim that every fetch runs under a bounded timeout. -/
theorem c6_request_has_no_timeout : (search_request "cats").timeout = none := rfl

/-- C1 evaluation: with a malformed stored entry for query "fish", the
handler terminates with the uncaught json decode exception, the fetch
never runs, and no Absent-and-refetch recovery happens; this contradicts
the claim that a corrupt entry is treated as Absent without raising. -/
theorem c1_malformed_cache_crashes :
    search_image (fun _ => ⟨[]⟩) "fish" 0
      [(get_cache_path "fish", CacheFile.malformed)] (.response 200 "body")
      = ⟨.error .jsonDecodeError,
         [(get_cache_path "fish", CacheFile.malformed)], false⟩ := by
  rfl

/-- C2 evaluation: with a fresh cached entry whose payload has no picture
element, parse_html_for_image raises IndexError, the except clause for
HTTPException does not catch it, the exception escapes the handler and the
fetch branch never runs; this contradicts the claim that the pipeline
falls through to the cache-miss fetch path. -/
theorem c2_cache_extract_failure_crashes :
    search_image (fun _ => ⟨[]⟩) "q" 0
      [(get_cache_path "q", CacheFile.record 0 "<html></html>")]
      (.response 200 "body")
      = ⟨.error (.extractErr .indexError),
         [(get_cache_path "q", CacheFile.record 0 "<html></html>")], false⟩ := by
  rfl

/-- C3: on a payload whose parsed document has no picture element, or whose
first picture element contains no img with a src attribute, the extractor
fails with one of its extraction exceptions and in particular never
returns a value, empty string included. -/
theorem c3_extract_no_qualifying_fails (parse : String → Soup) (html : String)
    (h : (parse html).pictures = [] ∨
      ∃ pic rest, (parse html).pictures = pic :: rest ∧
        ∀ i ∈ pic.imgs, i.src = none) :
    (∃ e : ExtractErr, parse_html_for_image parse html = .error e) ∧
    ∀ s : String, parse_html_for_image parse html ≠ .ok s := by
  have hmain : ∃ e : ExtractErr, parse_html_for_image parse html = .error e := by
    rcases h with h | ⟨pic, rest, hp, hall⟩
    · exact ⟨.indexError, by simp only [parse_html_for_image, h]⟩
    · rcases him : pic.imgs with _ | ⟨img, tl⟩
      · exact ⟨.typeError, by simp only [parse_html_for_image, hp, him]⟩
      · have hsrc : img.src = none := hall img (by rw [him]; exact List.mem_cons_self ..)
        exact ⟨.keyError, by simp only [parse_html_for_image, hp, him, hsrc]⟩
  refine ⟨hmain, ?_⟩
  intro s hs
  obtain ⟨e, he⟩ := hmain
  rw [hs] at he
  exact Except.noConfusion he

/-- Witness for C3: a payload parsing to a document with no picture element. -/
theorem c3_witness :
    (∃ e : ExtractErr, parse_html_for_image (fun _ => ⟨[]⟩) "x" = .error e) ∧
    ∀ s : String, parse_html_for_image (fun _ => ⟨[]⟩) "x" ≠ .ok s :=
  c3_extract_no_qualifying_fails (fun _ => ⟨[]⟩) "x" (Or.inl rfl)

/-- C7: when the cache has no entry for the query and the upstream fetch
fails (transport exception, or a status on which raise_for_status raises),
the handler ends in HTTPException 500 whose detail is the fetch error, the
fetch ran, and the cache directory is exactly as before: no entry written. -/
theorem c7_fetch_failure_500_no_cache_write (parse : String → Soup)
    (query : String) (now : Int) (cache : Cache) (fetch : FetchOutcome)
    (hmiss : cacheGet cache (get_cache_path query) = none)
    (hfail : isFetchFailure fetch = true) :
    ∃ d, search_image parse query now cache fetch
      = ⟨.error (.httpException 500 ("Error fetching image: " ++ d)),
         cache, true⟩ := by
  have hload : load_from_cache query now cache = .ok (none, cache) := by
    simp only [load_from_cache, hmiss]
  simp only [search_image, hload]
  cases fetch with
  | transportError d => exact ⟨d, rfl⟩
  | response status text =>
    simp only [isFetchFailure] at hfail
    exact ⟨http_error_str status (search_url query),
      by simp only [fetch_branch, hfail, if_true]⟩

/-- Witness for C7: empty cache, query "zzz", a transport error upstream. -/
theorem c7_witness :
    ∃ d, search_image (fun _ => ⟨[]⟩) "zzz" 0 [] (.transportError "boom")
      = ⟨.error (.httpException 500 ("Error fetching image: " ++ d)),
         [], true⟩ :=
  c7_fetch_failure_500_no_cache_write (fun _ => ⟨[]⟩) "zzz" 0 []
    (.transportError "boom") rfl rfl

/-- C9: on a fresh non-expired cached entry whose non-empty payload
extracts to a URL, the handler redirects to that URL, the upstream fetch
never runs, and the cache directory is returned exactly unchanged. -/
theorem c9_fresh_hit_no_fetch (parse : String → Soup) (query : String)
    (now t : Int) (cache : Cache) (fetch : FetchOutcome) (html url : String)
    (hentry : cacheGet cache (get_cache_path query) = some (.record t html))
    (hfresh : ¬(now - t > CACHE_EXPIRY))
    (hne : html ≠ "")
    (hparse : parse_html_for_image parse html = .ok url) :
    search_image parse query now cache fetch = ⟨.ok url, cache, false⟩ := by
  have hload : load_from_cache query now cache = .ok (some html, cache) := by
    simp only [load_from_cache, hentry, if_neg hfresh]
  have hbeq : (html == "") = false := beq_eq_false_iff_ne.mpr hne
  simp only [search_image, hload, hbeq, Bool.false_eq_true, if_false, hparse]

/-- Witness for C9: a fresh entry for "dogs" whose payload parses to a
picture containing an img whose src is the expected URL. -/
theorem c9_witness :
    search_image (fun _ => ⟨[⟨[⟨some "https://img/dogs1.jpg"⟩]⟩]⟩) "dogs" 0
      [(get_cache_path "dogs", CacheFile.record 0 "<html>")]
      (.response 200 "body")
      = ⟨.ok "https://img/dogs1.jpg",
         [(get_cache_path "dogs", CacheFile.record 0 "<html>")], false⟩ :=
  c9_fresh_hit_no_fetch (fun _ => ⟨[⟨[⟨some "https://img/dogs1.jpg"⟩]⟩]⟩)
    "dogs" 0 0 [(get_cache_path "dogs", CacheFile.record 0 "<html>")]
    (.response 200 "body") "<html>" "https://img/dogs1.jpg"
    (by simp [cacheGet]) (by decide) (by decide) rfl

/-- C10: a fresh cached entry whose persisted payload is the empty string
is treated as a cache miss, because the hit test is Python truthiness of
the returned payload: the handler runs the fetch branch and the upstream
fetch is invoked. -/
theorem c10_empty_payload_is_cache_miss (parse : String → Soup)
    (query : String) (now t : Int) (cache : Cache) (fetch : FetchOutcome)
    (hentry : cacheGet cache (get_cache_path query) = some (.record t ""))
    (hfresh : ¬(now - t > CACHE_EXPIRY)) :
    search_image parse query now cache fetch
      = fetch_branch parse query now cache fetch ∧
    (search_image parse query now cache fetch).fetched = true := by
  have hload : load_from_cache query now cache = .ok (some "", cache) := by
    simp only [load_from_cache, hentry, if_neg hfresh]
  have hmain : search_image parse query now cache fetch
      = fetch_branch parse query now cache fetch := by
    simp only [search_image, hload, BEq.refl, if_true]
  exact ⟨hmain, by rw [hmain]; exact fetch_branch_fetched ..⟩

/-- Witness for C10: a fresh empty-payload entry for "cats"; the fetch
branch runs and resolves from the freshly fetched body. -/
theorem c10_witness :
    search_image (fun _ => ⟨[⟨[⟨some "https://img/cats1.jpg"⟩]⟩]⟩) "cats" 0
      [(get_cache_path "cats", CacheFile.record 0 "")] (.response 200 "body")
      = fetch_branch (fun _ => ⟨[⟨[⟨some "https://img/cats1.jpg"⟩]⟩]⟩) "cats" 0
          [(get_cache_path "cats", CacheFile.record 0 "")]
          (.response 200 "body") ∧
    (search_image (fun _ => ⟨[⟨[⟨some "https://img/cats1.jpg"⟩]⟩]⟩) "cats" 0
      [(get_cache_path "cats", CacheFile.record 0 "")]
      (.response 200 "body")).fetched = true :=
  c10_empty_payload_is_cache_miss (fun _ => ⟨[⟨[⟨some "https://img/cats1.jpg"⟩]⟩]⟩)
    "cats" 0 0 [(get_cache_path "cats", CacheFile.record 0 "")]
    (.response 200 "body") (by simp [cacheGet]) (by decide)
